import Mathlib

/-!
Verification development for the Elevate performance-analytics core.

The definitions below are a shallow embedding of
`src/frontend/src/lib/aiInsights.ts` (`generateInsights`) and of the
aggregate helpers in `src/frontend/src/pages/Dashboard.tsx`
(`calculateAverage`, `getPersonalBest`, `getActivityScore`).

Modelling conventions:
* JavaScript timestamps are integers (milliseconds since the epoch) in a
  fixed-offset time zone; record `date` strings are assumed to parse to a
  valid timestamp (the code constructs `new Date(g.date)` without
  validation).
* JavaScript numbers are modelled as exact rationals, extended where the
  code can actually produce a non-finite value (the unguarded division in
  the points comparison and the 0/0 mean divisions) by the `JVal` type
  with `posInf`, `negInf` and `nan` constructors following IEEE-754
  semantics for the operations the code performs.
* `Date.prototype.setMonth` is modelled by ECMAScript `MakeDay`: the
  day-of-month is kept and a day count beyond the target month's length
  rolls forward into the following month (no clamping).
* `toFixed(1)` is idealised as decimal rounding of the exact rational; no
  claim depends on the rendered digits.
-/

abbrev Timestamp := Int

def dayMs : Int := 86400000

/-- A civil (proleptic Gregorian) calendar date; `month` is 0-based as in
JavaScript's `Date` API. -/
structure CivilDate where
  year : Int
  month : Int
  day : Int
deriving DecidableEq, Repr

/-- Days since 1970-01-01 of a civil date (Howard Hinnant's
`days_from_civil`, floor-division form).  `month` is 0-based and, as in
ECMAScript `MakeDay`, may lie outside `0..11` (the year is adjusted) and
`day` may exceed the month length (the excess rolls into later months). -/
def daysFromCivil (year month day : Int) : Int :=
  let y0 := year + Int.fdiv month 12
  let m := Int.fmod month 12 + 1
  let y := if m ≤ 2 then y0 - 1 else y0
  let era := Int.fdiv y 400
  let yoe := y - era * 400
  let doy := Int.fdiv (153 * (if 2 < m then m - 3 else m + 9) + 2) 5 + day - 1
  let doe := yoe * 365 + Int.fdiv yoe 4 - Int.fdiv yoe 100 + doy
  era * 146097 + doe - 719468

/-- Civil date of a count of days since 1970-01-01 (Hinnant's
`civil_from_days`); the result has `month ∈ 0..11` and a valid `day`. -/
def civilFromDays (z0 : Int) : CivilDate :=
  let z := z0 + 719468
  let era := Int.fdiv z 146097
  let doe := z - era * 146097
  let yoe := Int.fdiv (doe - Int.fdiv doe 1460 + Int.fdiv doe 36524 - Int.fdiv doe 146096) 365
  let y := yoe + era * 400
  let doy := doe - (365 * yoe + Int.fdiv yoe 4 - Int.fdiv yoe 100)
  let mp := Int.fdiv (5 * doy + 2) 153
  let d := doy - Int.fdiv (153 * mp + 2) 5 + 1
  let m := if mp < 10 then mp + 3 else mp - 9
  ⟨if m ≤ 2 then y + 1 else y, m - 1, d⟩

/-- Milliseconds-timestamp of a civil date plus a time-of-day in
milliseconds. -/
def civilToMs (year month day tod : Int) : Timestamp :=
  daysFromCivil year month day * dayMs + tod

/-- `d.setMonth(newMonth)` on a timestamp: keep the day-of-month and the
time-of-day, move to `newMonth` (ECMAScript `MakeDay`; a day-of-month the
target month does not have rolls forward into the following month). -/
def setMonthMs (t : Timestamp) (newMonth : Int) : Timestamp :=
  let c := civilFromDays (Int.fdiv t dayMs)
  civilToMs c.year newMonth c.day (Int.fmod t dayMs)

inductive Period where
  | weekly
  | monthly
deriving DecidableEq, Repr

def periodName : Period → String
  | .weekly => "weekly"
  | .monthly => "monthly"

/-- `aiInsights.ts` lines 14-20: `periodStart` is `now` with
`setDate(getDate() - 7)` for weekly (7 civil days earlier, same
time-of-day: a fixed `7 * dayMs` offset in a fixed-offset zone) and
`setMonth(getMonth() - 1)` for monthly. -/
def computePeriodStart (p : Period) (now : Timestamp) : Timestamp :=
  match p with
  | .weekly => now - 7 * dayMs
  | .monthly =>
      let c := civilFromDays (Int.fdiv now dayMs)
      civilToMs c.year (c.month - 1) c.day (Int.fmod now dayMs)

/-- `GameStat` (src/frontend/src/types/index.ts); `date` is the parsed
timestamp, the stat fields are JavaScript numbers. -/
structure GameStat where
  date : Timestamp
  points : ℚ
  assists : ℚ
  rebounds : ℚ
  steals : ℚ
  blocks : ℚ
  turnovers : ℚ
  minutes : ℚ
deriving DecidableEq, Repr

/-- The two metric fields read by the insights logic; a missing key is
`none`. -/
structure Metrics where
  freeThrowPercentage : Option ℚ
  threePointPercentage : Option ℚ
deriving DecidableEq, Repr

structure TrainingSession where
  date : Timestamp
  metrics : Metrics
deriving DecidableEq, Repr

/-- `Goal` records are destructured but never read by `generateInsights`;
only the fields exist here. -/
structure Goal where
  title : String
  status : String
deriving DecidableEq, Repr

structure InsightData where
  games : List GameStat
  sessions : List TrainingSession
  goals : List Goal
  period : Period
deriving DecidableEq, Repr

/-- JavaScript truthiness of a possibly-missing numeric field:
`undefined` and `0` are falsy, every other (finite) number is truthy. -/
def truthy (o : Option ℚ) : Bool :=
  match o with
  | some v => decide (v ≠ 0)
  | none => false

/-- `(x || 0)` for a possibly-missing numeric field. -/
def orZero (o : Option ℚ) : ℚ := o.getD 0

/-- The JavaScript numbers reachable in this code: finite values plus the
infinities and NaN that the unguarded divisions can produce. -/
inductive JVal where
  | num (q : ℚ)
  | posInf
  | negInf
  | nan
deriving DecidableEq, Repr

/-- IEEE division of finite numbers: `b = 0` gives `±Infinity` or, for
`0/0`, `NaN`. -/
def jdiv (a b : ℚ) : JVal :=
  if b = 0 then
    if 0 < a then .posInf else if a < 0 then .negInf else .nan
  else .num (a / b)

/-- Multiplication by the positive literal 100. -/
def JVal.mul100 : JVal → JVal
  | .num q => .num (q * 100)
  | .posInf => .posInf
  | .negInf => .negInf
  | .nan => .nan

/-- `Math.abs`. -/
def JVal.jabs : JVal → JVal
  | .num q => .num |q|
  | .posInf => .posInf
  | .negInf => .posInf
  | .nan => .nan

/-- `v > c` for a finite literal `c` (`NaN` compares false). -/
def JVal.jgt (v : JVal) (c : ℚ) : Bool :=
  match v with
  | .num q => c < q
  | .posInf => true
  | .negInf => false
  | .nan => false

/-- `v < c` for a finite literal `c` (`NaN` compares false). -/
def JVal.jlt (v : JVal) (c : ℚ) : Bool :=
  match v with
  | .num q => q < c
  | .posInf => false
  | .negInf => true
  | .nan => false

/-- JavaScript truthiness of a number: `0` and `NaN` are falsy. -/
def JVal.jtruthy : JVal → Bool
  | .num q => decide (q ≠ 0)
  | .posInf => true
  | .negInf => true
  | .nan => false

/-- `v > 0`. -/
def JVal.gtZero : JVal → Bool
  | .num q => 0 < q
  | .posInf => true
  | .negInf => false
  | .nan => false

/-- `Math.round`: `floor(x + 1/2)` on finite values, identity on
`±Infinity` and `NaN`. -/
def JVal.jround : JVal → JVal
  | .num q => .num (⌊q + 1/2⌋ : ℤ)
  | .posInf => .posInf
  | .negInf => .negInf
  | .nan => .nan

/-- Subtraction (only finite minus finite is reachable here, but the
IEEE table is given in full). -/
def JVal.jsub : JVal → JVal → JVal
  | .num a, .num b => .num (a - b)
  | .num _, .posInf => .negInf
  | .num _, .negInf => .posInf
  | .posInf, .num _ => .posInf
  | .negInf, .num _ => .negInf
  | .posInf, .posInf => .nan
  | .negInf, .negInf => .nan
  | .posInf, .negInf => .posInf
  | .negInf, .posInf => .negInf
  | .nan, _ => .nan
  | _, .nan => .nan

/-- String form of a rounded value for interpolation into a description
(after `Math.round` the finite case is an integer). -/
def JVal.render : JVal → String
  | .num q => toString q.num
  | .posInf => "Infinity"
  | .negInf => "-Infinity"
  | .nan => "NaN"

/-- `reduce((sum, x) => sum + f(x), 0)`. -/
def sumBy {α : Type} (l : List α) (f : α → ℚ) : ℚ :=
  l.foldl (fun acc x => acc + f x) 0

/-- Idealised `toFixed(1)`: render the rational rounded to one decimal. -/
def toFixed1 (q : ℚ) : String :=
  let n : Int := round (q * 10)
  let a := n.natAbs
  (if n < 0 then "-" else "") ++ toString (a / 10) ++ "." ++ toString (a % 10)

/-- One entry of the `improvements` array (types/index.ts `AISummary`):
`{metric, change, description}`. -/
structure Improvement where
  metric : String
  change : JVal
  description : String
deriving DecidableEq, Repr

/-- The object returned by `generateInsights`. -/
structure InsightResult where
  insights : List String
  improvements : List Improvement
  focusAreas : List String
  motivationalMessage : String
deriving DecidableEq, Repr

/-- Line 22: `games.filter(g => new Date(g.date) >= periodStart)`. -/
def periodGamesOf (games : List GameStat) (p : Period) (now : Timestamp) : List GameStat :=
  games.filter (fun g => computePeriodStart p now ≤ g.date)

/-- Line 23: `sessions.filter(s => new Date(s.date) >= periodStart)`. -/
def periodSessionsOf (sessions : List TrainingSession) (p : Period) (now : Timestamp) : List TrainingSession :=
  sessions.filter (fun s => computePeriodStart p now ≤ s.date)

/-- `slice(0, Math.ceil(length / 2))`: the front of the array. -/
def frontHalf {α : Type} (l : List α) : List α :=
  l.take ((l.length + 1) / 2)

/-- `slice(Math.ceil(length / 2))`: the back of the array. -/
def backHalf {α : Type} (l : List α) : List α :=
  l.drop ((l.length + 1) / 2)

/-- `reduce((sum, x) => sum + f(x), 0) / length` (finite whenever the
list is non-empty; the code only divides under a non-emptiness guard). -/
def meanOf {α : Type} (l : List α) (f : α → ℚ) : ℚ :=
  sumBy l f / (l.length : ℚ)

/-- The object pushed by lines 38-44. -/
def pointsEntry (change : JVal) (p : Period) : Improvement :=
  { metric := "Points Per Game"
    change := change.jround
    description :=
      if change.gtZero then
        "Your scoring improved by " ++ (change.jround).render ++ "% this " ++ periodName p ++ "!"
      else
        "Your scoring decreased by " ++ ((change.jround).jabs).render ++ "% - let\x27s work on getting back on track." }

/-- Lines 29-46: the points-per-game trend comparison.  `slice(0,
ceil(n/2))` is the front of the array (named `recentGames` in the
source), `slice(ceil(n/2))` the back (`olderGames`); the pushed entry is
returned as an `Option`. -/
def pointsComparison (periodGames : List GameStat) (p : Period) : Option Improvement :=
  if 2 ≤ periodGames.length then
    let recentAvg := meanOf (frontHalf periodGames) (·.points)
    let olderAvg := meanOf (backHalf periodGames) (·.points)
    let change := (jdiv (recentAvg - olderAvg) olderAvg).mul100
    if (change.jabs).jgt 5 then some (pointsEntry change p)
    else none
  else none

/-- Lines 49-51: sessions whose `freeThrowPercentage` or
`threePointPercentage` is truthy. -/
def shootingSessionsOf (periodSessions : List TrainingSession) : List TrainingSession :=
  periodSessions.filter (fun s => truthy s.metrics.freeThrowPercentage || truthy s.metrics.threePointPercentage)

/-- The free-throw mean of one half: filter to sessions with a truthy
`freeThrowPercentage`, sum `(freeThrowPercentage || 0)` and divide by the
filtered count (`0/0` is `NaN` when the half has no such session). -/
def ftMean (half : List TrainingSession) : JVal :=
  jdiv (sumBy (half.filter (fun s => truthy s.metrics.freeThrowPercentage)) (fun s => orZero s.metrics.freeThrowPercentage))
       ((half.filter (fun s => truthy s.metrics.freeThrowPercentage)).length : ℚ)

/-- The object pushed by lines 68-74. -/
def ftEntry (change : JVal) : Improvement :=
  { metric := "Free Throw %"
    change := change.jround
    description :=
      if change.gtZero then
        "Your free throw shooting improved by " ++ (change.jround).render ++ "% - great work at the line!"
      else
        "Your free throw percentage dropped " ++ ((change.jround).jabs).render ++ "% - more practice needed." }

/-- Lines 53-77: the free-throw trend comparison over the shooting
sessions; the `if (recentFT && olderFT)` truthiness guard skips `NaN`
(and exact-0) means. -/
def ftComparison (periodSessions : List TrainingSession) : Option Improvement :=
  let shootingSessions := shootingSessionsOf periodSessions
  if 2 ≤ shootingSessions.length then
    let recentFT := ftMean (frontHalf shootingSessions)
    let olderFT := ftMean (backHalf shootingSessions)
    if recentFT.jtruthy && olderFT.jtruthy then
      let change := recentFT.jsub olderFT
      if (change.jabs).jgt 3 then some (ftEntry change)
      else none
    else none
  else none

/-- Lines 80-91: the narrative insight strings. -/
def insightsOf (periodGames : List GameStat) (periodSessions : List TrainingSession) (p : Period) : List String :=
  (if 0 < periodGames.length then
    ["You played " ++ toString periodGames.length ++ " " ++
       (if periodGames.length = 1 then "game" else "games") ++ " this " ++ periodName p ++ ".",
     "You averaged " ++ toFixed1 (meanOf periodGames (·.points)) ++ " points per game."]
   else []) ++
  (if 0 < periodSessions.length then
    ["You completed " ++ toString periodSessions.length ++ " training " ++
       (if periodSessions.length = 1 then "session" else "sessions") ++ " - excellent dedication!"]
   else [])

def ballHandlingMsg : String := "Ball handling - work on reducing turnovers through control drills"

def playmakingMsg : String := "Playmaking - focus on court vision and passing drills"

def threePointMsg : String := "Three-point shooting - increase practice volume and focus on form"

/-- The 3-point mean over sessions with a truthy `threePointPercentage`
(`0/0 = NaN` when none qualifies). -/
def threePtMean (shooting : List TrainingSession) : JVal :=
  jdiv (sumBy (shooting.filter (fun s => truthy s.metrics.threePointPercentage)) (fun s => orZero s.metrics.threePointPercentage))
       ((shooting.filter (fun s => truthy s.metrics.threePointPercentage)).length : ℚ)

/-- Lines 94-116: threshold-triggered focus areas.  The 3-point mean is a
`NaN`-capable division over sessions with a truthy
`threePointPercentage`, and `if (avg3PT && avg3PT < 35)` tests its
truthiness first. -/
def focusAreasOf (periodGames : List GameStat) (periodSessions : List TrainingSession) : List String :=
  (if 0 < periodGames.length then
    (if 3 < meanOf periodGames (·.turnovers) then [ballHandlingMsg] else []) ++
    (if meanOf periodGames (·.assists) < 2 then [playmakingMsg] else [])
   else []) ++
  (let shootingSessions := shootingSessionsOf periodSessions
   if 0 < shootingSessions.length then
     let avg3PT := threePtMean shootingSessions
     if avg3PT.jtruthy && avg3PT.jlt 35 then [threePointMsg] else []
   else [])

def keepItUpMsg : String := "You\x27re making great progress! Keep up the hard work and stay focused on your goals."

def consistencyMsg : String := "Consistency is key! Keep showing up and putting in the work - results will follow."

def getStartedMsg : String := "Ready to get started? Log your games and training to track your progress!"

/-- Lines 119-126: the motivational-message decision table. -/
def motivationalOf (improvements : List Improvement) (periodGames : List GameStat) (periodSessions : List TrainingSession) : String :=
  if 0 < improvements.length ∧ improvements.any (fun i => i.change.gtZero) then keepItUpMsg
  else if 0 < periodGames.length ∨ 0 < periodSessions.length then consistencyMsg
  else getStartedMsg

/-- `generateInsights` (aiInsights.ts lines 10-134).  `now` is the
evaluation time (`new Date()`); the two candidate improvement pushes are
assembled in source order. -/
def generateInsights (data : InsightData) (now : Timestamp) : InsightResult :=
  let periodGames := periodGamesOf data.games data.period now
  let periodSessions := periodSessionsOf data.sessions data.period now
  let improvements := (pointsComparison periodGames data.period).toList ++ (ftComparison periodSessions).toList
  { insights := insightsOf periodGames periodSessions data.period
    improvements := improvements
    focusAreas := focusAreasOf periodGames periodSessions
    motivationalMessage := motivationalOf improvements periodGames periodSessions }

/-- Dashboard.tsx lines 24-28: season mean of a stat; `0` (a number) for
an empty collection, otherwise the `toFixed(1)` string. -/
inductive JsValue where
  | num (q : ℚ)
  | str (s : String)
deriving DecidableEq, Repr

inductive StatField where
  | points
  | assists
  | rebounds
deriving DecidableEq, Repr

def statValue : StatField → GameStat → ℚ
  | .points, g => g.points
  | .assists, g => g.assists
  | .rebounds, g => g.rebounds

def calculateAverage (games : List GameStat) (stat : StatField) : JsValue :=
  if games.length = 0 then .num 0
  else .str (toFixed1 (meanOf games (statValue stat)))

/-- Dashboard.tsx lines 30-33: `reduce((max, game) => game.points >
max.points ? game : max)` over a non-empty array, `null` when empty. -/
def getPersonalBest (games : List GameStat) : Option GameStat :=
  match games with
  | [] => none
  | h :: t => some (t.foldl (fun mx g => if mx.points < g.points then g else mx) h)

/-- Dashboard.tsx lines 41-46: `min(count * 15, 100)` over the combined
game and training records dated on or after `now - 7 days` (only the
`date` field of each record is read). -/
def getActivityScore (games : List GameStat) (sessions : List TrainingSession) (now : Timestamp) : Int :=
  let weekAgo := now - 7 * dayMs
  let recentActivities := (games.map (·.date) ++ sessions.map (·.date)).filter (fun d => weekAgo ≤ d)
  min ((recentActivities.length : Int) * 15) 100

/-! Concrete records used by the witnesses and counterexamples. -/

/-- A game with the stats the insight logic reads; remaining fields 0. -/
def mkGame (date : Timestamp) (points assists turnovers : ℚ) : GameStat :=
  { date := date, points := points, assists := assists, rebounds := 0,
    steals := 0, blocks := 0, turnovers := turnovers, minutes := 0 }

def mkSession (date : Timestamp) (ft threePt : Option ℚ) : TrainingSession :=
  { date := date, metrics := { freeThrowPercentage := ft, threePointPercentage := threePt } }

/-- A fixed evaluation time: 8 days after the epoch (so the weekly window
starts at day 1). -/
def now0 : Timestamp := 8 * dayMs

/-- Modelled from the spec (§4.3), for comparison with the code's
`ftComparison`: the free-throw trend comparison in which sessions lacking
the `freeThrowPercentage` field are excluded from the means AND from the
count used to satisfy `minSamples = 2`, the halves being taken of the
free-throw-carrying sessions only; the delta is the absolute point
difference with minimum magnitude 3.  Returns the delta, or `none` when
the comparison is skipped. -/
def ftComparisonSpec (periodSessions : List TrainingSession) : Option ℚ :=
  let fts := periodSessions.filter (fun s => truthy s.metrics.freeThrowPercentage)
  if 2 ≤ fts.length then
    let recentMean := meanOf (frontHalf fts) (fun s => orZero s.metrics.freeThrowPercentage)
    let olderMean := meanOf (backHalf fts) (fun s => orZero s.metrics.freeThrowPercentage)
    let change := recentMean - olderMean
    if 3 < |change| then some change else none
  else none

/-- C1: the spec's scenario games — points 10, 12, 20, 22 on ascending
dates, all inside the weekly window of `now0`. -/
def c1Games : List GameStat :=
  [mkGame (2 * dayMs) 10 2 0, mkGame (3 * dayMs) 12 2 0,
   mkGame (4 * dayMs) 20 2 0, mkGame (5 * dayMs) 22 2 0]

/-- C1 witness input: three in-window games with a front-half mean below
the back-half mean. -/
def c1wGames : List GameStat :=
  [mkGame (2 * dayMs) 5 2 0, mkGame (3 * dayMs) 6 2 0, mkGame (4 * dayMs) 10 2 0]

/-- C2 counterexample input: the back ("older") half has mean 0. -/
def c2Games : List GameStat :=
  [mkGame (2 * dayMs) 10 2 0, mkGame (3 * dayMs) 0 2 0]

/-- C2 witness input. -/
def c2wGames : List GameStat :=
  [mkGame (4 * dayMs) 12 2 0, mkGame (5 * dayMs) 0 2 0]

/-- C4 counterexample input: a game dated one day after `now0`. -/
def c4Game : GameStat := mkGame (9 * dayMs) 5 2 0

/-- C5 witness input: the maximum points value 9 is attained twice; the
earlier record differs from the later one in `assists`. -/
def c5Games : List GameStat :=
  [mkGame (2 * dayMs) 4 1 0, mkGame (3 * dayMs) 9 2 0, mkGame (4 * dayMs) 9 3 0]

/-- C6 witness inputs. -/
def c6Games : List GameStat :=
  [mkGame (2 * dayMs) 7 0 0, mkGame (3 * dayMs) 8 0 0]

def c6Sessions : List TrainingSession :=
  [mkSession (4 * dayMs) (some 70) none]

/-- C7 witness input: one game and one session dated before the weekly
window of `now0`, so both period-filtered collections are empty. -/
def c7Data : InsightData :=
  { games := [mkGame 0 30 5 1], sessions := [mkSession (Int.neg dayMs) (some 80) none],
    goals := [], period := .weekly }

/-- C8 witness input: period games with turnover mean 4.5 > 3 and assist
mean 1.5 < 2. -/
def c8Data : InsightData :=
  { games := [mkGame (2 * dayMs) 10 1 5, mkGame (3 * dayMs) 12 2 4],
    sessions := [], goals := [], period := .weekly }

/-- C9 counterexample input: two free-throw sessions and one
3-point-only session, all inside the weekly window of `now0`. -/
def c9Sessions : List TrainingSession :=
  [mkSession (2 * dayMs) (some 80) none, mkSession (3 * dayMs) (some 70) none,
   mkSession (4 * dayMs) none (some 40)]

/-- C9 witness input: every session lacks `freeThrowPercentage`. -/
def c9wData : InsightData :=
  { games := [], sessions := [mkSession (2 * dayMs) none (some 40), mkSession (3 * dayMs) none (some 30)],
    goals := [], period := .weekly }

/-- The field scrub of C10: a present-but-zero metric value becomes a
missing one. -/
def zeroToNone (o : Option ℚ) : Option ℚ :=
  match o with
  | some v => if v = 0 then none else some v
  | none => none

def scrubSession (s : TrainingSession) : TrainingSession :=
  { date := s.date,
    metrics := { freeThrowPercentage := zeroToNone s.metrics.freeThrowPercentage,
                 threePointPercentage := zeroToNone s.metrics.threePointPercentage } }

/-! ## C3 — monthly window start -/

/-- C3 counterexample: the claim says the monthly window start for an
evaluation time of 2025-03-31 12:00 is clamped to the last valid day of
February (2025-02-28 12:00); instead `setMonth` keeps the day-of-month
and the overflow rolls forward, giving 2025-03-03 12:00. -/
theorem c3_monthly_not_clamped :
    computePeriodStart .monthly (civilToMs 2025 2 31 43200000) ≠ civilToMs 2025 1 28 43200000 ∧
    computePeriodStart .monthly (civilToMs 2025 2 31 43200000) = civilToMs 2025 2 3 43200000 :=
  ⟨by decide, by decide⟩

/-- C3 amended: the monthly window start keeps the evaluation
day-of-month; when the preceding month is shorter, the date rolls
forward into the evaluation month by the excess days (Mar 31 2025 →
Mar 3; Mar 31 2024, leap year → Mar 2; the year is borrowed for January;
a day the preceding month does have is kept unchanged). -/
theorem c3_monthly_rolls_over :
    computePeriodStart .monthly (civilToMs 2025 2 31 43200000) = civilToMs 2025 2 3 43200000 ∧
    computePeriodStart .monthly (civilToMs 2024 2 31 43200000) = civilToMs 2024 2 2 43200000 ∧
    computePeriodStart .monthly (civilToMs 2025 0 31 43200000) = civilToMs 2024 11 31 43200000 ∧
    computePeriodStart .monthly (civilToMs 2025 6 15 43200000) = civilToMs 2025 5 15 43200000 :=
  ⟨by decide, by decide, by decide, by decide⟩

/-! ## C4 — period filter bounds -/

/-- C4 counterexample: the claim says no record dated strictly after the
evaluation time is kept; `c4Game` is dated one day after `now0` and is
kept by the weekly period filter. -/
theorem c4_future_record_included :
    c4Game ∈ periodGamesOf [c4Game] .weekly now0 ∧ now0 < c4Game.date :=
  ⟨by decide, by decide⟩

/-- C4 amended: the period filter keeps exactly the records with
`date >= periodStart` — there is no upper bound, so future-dated records
are kept too — and an empty input collection yields an empty filtered
collection. -/
theorem c4_filter_lower_bound_only (games : List GameStat) (p : Period) (now : Timestamp) :
    (∀ g, g ∈ periodGamesOf games p now ↔ g ∈ games ∧ computePeriodStart p now ≤ g.date) ∧
    periodGamesOf [] p now = [] := by
  refine ⟨fun g => ?_, rfl⟩
  simp [periodGamesOf, List.mem_filter]

/-! ## Helper lemmas -/

theorem jdiv_zero_of_pos {a : ℚ} (h : 0 < a) : jdiv a 0 = .posInf := by
  simp [jdiv, h]

theorem jdiv_zero_of_neg {a : ℚ} (h : a < 0) : jdiv a 0 = .negInf := by
  simp [jdiv, h, not_lt.mpr h.le]

theorem jdiv_zero_zero : jdiv 0 0 = .nan := by
  simp [jdiv]

theorem pointsComparison_of_two_le (pg : List GameStat) (p : Period) (h : 2 ≤ pg.length) :
    pointsComparison pg p =
      (if ((((jdiv (meanOf (frontHalf pg) (·.points) - meanOf (backHalf pg) (·.points))
                (meanOf (backHalf pg) (·.points))).mul100).jabs).jgt 5)
       then some (pointsEntry ((jdiv (meanOf (frontHalf pg) (·.points) - meanOf (backHalf pg) (·.points))
                (meanOf (backHalf pg) (·.points))).mul100) p)
       else none) := by
  unfold pointsComparison
  rw [if_pos h]

/-! ## C2 — no division-by-zero guard in the points comparison -/

/-- C2 counterexample: for games with points 10 then 0 (both in the
weekly window) the back ("older") half has mean 0, yet the comparison is
not skipped: the change is `(10 - 0) / 0 * 100 = Infinity`, which passes
the `> 5` test, and an improvement entry with change `Infinity` is
produced — contradicting the claim that no entry is produced. -/
theorem c2_entry_produced_on_zero_older_mean :
    meanOf (backHalf (periodGamesOf c2Games .weekly now0)) (·.points) = 0 ∧
    (generateInsights ⟨c2Games, [], [], .weekly⟩ now0).improvements =
      [pointsEntry JVal.posInf .weekly] ∧
    (pointsEntry JVal.posInf .weekly).change = JVal.posInf := by
  refine ⟨?_, ?_, rfl⟩
  · norm_num [meanOf, backHalf, periodGamesOf, computePeriodStart, c2Games, mkGame, now0, dayMs,
      sumBy, List.filter]
  · norm_num [generateInsights, periodGamesOf, periodSessionsOf, computePeriodStart, c2Games,
      mkGame, now0, dayMs, pointsComparison, ftComparison, shootingSessionsOf, ftMean, frontHalf,
      backHalf, meanOf, sumBy, jdiv, JVal.mul100, JVal.jabs, JVal.jgt, List.filter,
      abs_of_pos, abs_of_nonpos, Option.toList_some]

/-- C2 amended: the relative-delta comparison never raises, but it is
not guarded: with an older-half mean of 0 and a non-zero recent-half
mean the change is `±Infinity` and an improvement entry with change
`±Infinity` IS produced; only when the recent-half mean is also 0 does
the `NaN` change fail the magnitude test, producing no entry. -/
theorem c2_zero_older_mean_not_guarded (pg : List GameStat) (p : Period)
    (hlen : 2 ≤ pg.length)
    (holder : meanOf (backHalf pg) (·.points) = 0) :
    (0 < meanOf (frontHalf pg) (·.points) →
       pointsComparison pg p = some (pointsEntry JVal.posInf p)) ∧
    (meanOf (frontHalf pg) (·.points) < 0 →
       pointsComparison pg p = some (pointsEntry JVal.negInf p)) ∧
    (meanOf (frontHalf pg) (·.points) = 0 → pointsComparison pg p = none) := by
  have hb := pointsComparison_of_two_le pg p hlen
  rw [holder, sub_zero] at hb
  refine ⟨fun hpos => ?_, fun hneg => ?_, fun hz => ?_⟩
  · rw [jdiv_zero_of_pos hpos] at hb
    simpa [JVal.mul100, JVal.jabs, JVal.jgt] using hb
  · rw [jdiv_zero_of_neg hneg] at hb
    simpa [JVal.mul100, JVal.jabs, JVal.jgt] using hb
  · rw [hz, jdiv_zero_zero] at hb
    simpa [JVal.mul100, JVal.jabs, JVal.jgt] using hb

/-- C2 witness: the amended theorem applied to the concrete games with
points 12 then 0. -/
theorem c2_zero_older_mean_not_guarded_witness :
    pointsComparison c2wGames .weekly = some (pointsEntry JVal.posInf .weekly) :=
  (c2_zero_older_mean_not_guarded c2wGames .weekly (by decide)
      (by norm_num [meanOf, backHalf, c2wGames, mkGame, sumBy])).1
    (by norm_num [meanOf, frontHalf, c2wGames, mkGame, sumBy])

/-! ## C1 — which half is "recent" -/

/-- C1 counterexample: for the spec's scenario — points 10, 12, 20, 22 in
ascending date order, weekly period, all inside the window — the code
takes the FRONT half (the older games, mean 11) as `recentGames` and the
back half (mean 21) as `olderGames`, so the relative change is
`(11 - 21)/21*100 = -1000/21 ≈ -47.6%`: the single Points Per Game entry
produced carries the rounded change `-48`, which is not positive —
refuting the claimed `+90.9%` positive-direction entry. -/
theorem c1_scenario_entry_is_negative :
    meanOf (frontHalf (periodGamesOf c1Games .weekly now0)) (·.points) = 11 ∧
    meanOf (backHalf (periodGamesOf c1Games .weekly now0)) (·.points) = 21 ∧
    (generateInsights ⟨c1Games, [], [], .weekly⟩ now0).improvements =
      [pointsEntry (JVal.num (-1000/21)) .weekly] ∧
    (pointsEntry (JVal.num (-1000/21)) .weekly).change = JVal.num (-48) ∧
    (pointsEntry (JVal.num (-1000/21)) .weekly).change.gtZero = false := by
  refine ⟨?_, ?_, ?_, ?_, ?_⟩
  · norm_num [meanOf, frontHalf, periodGamesOf, computePeriodStart, c1Games, mkGame, now0, dayMs,
      sumBy, List.filter]
  · norm_num [meanOf, backHalf, periodGamesOf, computePeriodStart, c1Games, mkGame, now0, dayMs,
      sumBy, List.filter]
  · norm_num [generateInsights, periodGamesOf, periodSessionsOf, computePeriodStart, c1Games,
      mkGame, now0, dayMs, pointsComparison, ftComparison, shootingSessionsOf, ftMean, frontHalf,
      backHalf, meanOf, sumBy, jdiv, JVal.mul100, JVal.jabs, JVal.jgt, List.filter,
      abs_of_pos, abs_of_nonpos, Option.toList_some]
  · norm_num [pointsEntry, JVal.jround, Int.floor_eq_iff]
  · norm_num [pointsEntry, JVal.jround, JVal.gtZero, Int.floor_eq_iff, Int.floor_nonpos]

/-- C1 amended: the comparator takes the `ceil(n/2)` FIRST records (the
front of the array — for ascending date order, the older data) as
"recent" and the remaining back records as "older"; for the scenario the
front mean is 11, the back mean 21, and exactly one Points Per Game
entry with the negative rounded change `-48` is produced.  In general,
whenever the front-half mean is below a positive back-half mean, any
entry produced has a non-positive change. -/
theorem c1_front_half_is_recent :
    ((generateInsights ⟨c1Games, [], [], .weekly⟩ now0).improvements.map
        (fun e => (e.metric, e.change)) = [("Points Per Game", JVal.num (-48))]) ∧
    ∀ (pg : List GameStat) (p : Period),
      2 ≤ pg.length →
      meanOf (frontHalf pg) (·.points) < meanOf (backHalf pg) (·.points) →
      0 < meanOf (backHalf pg) (·.points) →
      (pointsComparison pg p).all (fun e => !e.change.gtZero) = true := by
  constructor
  · norm_num [generateInsights, periodGamesOf, periodSessionsOf, computePeriodStart, c1Games,
      mkGame, now0, dayMs, pointsComparison, ftComparison, shootingSessionsOf, ftMean, frontHalf,
      backHalf, meanOf, sumBy, jdiv, JVal.mul100, JVal.jabs, JVal.jgt, List.filter, pointsEntry,
      JVal.jround, Int.floor_eq_iff, abs_of_pos, abs_of_nonpos, Option.toList_some]
  · intro pg p hlen hlt hpos
    have hb := pointsComparison_of_two_le pg p hlen
    rw [hb]
    have hq : jdiv (meanOf (frontHalf pg) (·.points) - meanOf (backHalf pg) (·.points))
        (meanOf (backHalf pg) (·.points)) =
        .num ((meanOf (frontHalf pg) (·.points) - meanOf (backHalf pg) (·.points)) /
          meanOf (backHalf pg) (·.points)) := by
      simp [jdiv, ne_of_gt hpos]
    rw [hq]
    split
    · have hneg : (meanOf (frontHalf pg) (·.points) - meanOf (backHalf pg) (·.points)) /
          meanOf (backHalf pg) (·.points) * 100 < 0 := by
        have hd : (meanOf (frontHalf pg) (·.points) - meanOf (backHalf pg) (·.points)) /
            meanOf (backHalf pg) (·.points) < 0 :=
          div_neg_of_neg_of_pos (by linarith) hpos
        linarith
      have hfl : (⌊(meanOf (frontHalf pg) (·.points) - meanOf (backHalf pg) (·.points)) /
          meanOf (backHalf pg) (·.points) * 100 + 1/2⌋ : ℤ) < 1 := by
        rw [Int.floor_lt]
        push_cast
        linarith
      simp only [Option.all_some, pointsEntry, JVal.mul100, JVal.jround, JVal.gtZero,
        Bool.not_eq_true']
      simp only [decide_eq_false_iff_not, not_lt]
      exact_mod_cast Int.lt_add_one_iff.mp hfl
    · rfl

/-- C1 witness: the general part of the amended theorem applied to three
concrete in-window games with points 5, 6, 10. -/
theorem c1_front_half_is_recent_witness :
    (pointsComparison c1wGames .weekly).all (fun e => !e.change.gtZero) = true :=
  c1_front_half_is_recent.2 c1wGames .weekly (by decide)
    (by norm_num [meanOf, frontHalf, backHalf, c1wGames, mkGame, sumBy])
    (by norm_num [meanOf, backHalf, c1wGames, mkGame, sumBy])

/-! ## C7 — graceful degradation on an empty period -/

/-- C7: with no game and no training session inside the period window,
generation returns (it is a total function) with an empty insights list,
an empty improvements list, and the "get started" motivational
message. -/
theorem c7_empty_period_degrades_gracefully (data : InsightData) (now : Timestamp)
    (hg : periodGamesOf data.games data.period now = [])
    (hs : periodSessionsOf data.sessions data.period now = []) :
    (generateInsights data now).insights = [] ∧
    (generateInsights data now).improvements = [] ∧
    (generateInsights data now).motivationalMessage = getStartedMsg := by
  simp only [generateInsights, hg, hs]
  refine ⟨?_, ?_, ?_⟩ <;>
    simp [insightsOf, pointsComparison, ftComparison, shootingSessionsOf, motivationalOf,
      List.filter]

/-- C7 witness: the theorem applied to records that all predate the
weekly window of `now0`. -/
theorem c7_empty_period_degrades_gracefully_witness :
    (generateInsights c7Data now0).insights = [] ∧
    (generateInsights c7Data now0).improvements = [] ∧
    (generateInsights c7Data now0).motivationalMessage = getStartedMsg :=
  c7_empty_period_degrades_gracefully c7Data now0 (by decide) (by decide)

/-! ## C8 — focus-area threshold checks -/

/-- C8: over the period-filtered games, a turnover mean above 3 yields
the ball-handling entry and an assist mean below 2 yields the playmaking
entry (independently, so both can appear); each entry appears at most
once; and with no period game neither entry is emitted. -/
theorem c8_focus_area_thresholds (data : InsightData) (now : Timestamp) :
    (periodGamesOf data.games data.period now ≠ [] →
       3 < meanOf (periodGamesOf data.games data.period now) (·.turnovers) →
       ballHandlingMsg ∈ (generateInsights data now).focusAreas) ∧
    (periodGamesOf data.games data.period now ≠ [] →
       meanOf (periodGamesOf data.games data.period now) (·.assists) < 2 →
       playmakingMsg ∈ (generateInsights data now).focusAreas) ∧
    (generateInsights data now).focusAreas.count ballHandlingMsg ≤ 1 ∧
    (generateInsights data now).focusAreas.count playmakingMsg ≤ 1 ∧
    (periodGamesOf data.games data.period now = [] →
       ballHandlingMsg ∉ (generateInsights data now).focusAreas ∧
       playmakingMsg ∉ (generateInsights data now).focusAreas) := by
  simp only [generateInsights]
  refine ⟨fun hne hturn => ?_, fun hne hass => ?_, ?_, ?_, fun hempty => ?_⟩
  · have hlen : 0 < (periodGamesOf data.games data.period now).length :=
      List.length_pos.mpr hne
    simp [focusAreasOf, hlen, hturn]
  · have hlen : 0 < (periodGamesOf data.games data.period now).length :=
      List.length_pos.mpr hne
    simp [focusAreasOf, hlen, hass]
  · simp only [focusAreasOf, List.count_append]
    split_ifs <;>
      simp_all [List.count_cons, List.count_nil, ballHandlingMsg, playmakingMsg, threePointMsg]
  · simp only [focusAreasOf, List.count_append]
    split_ifs <;>
      simp_all [List.count_cons, List.count_nil, ballHandlingMsg, playmakingMsg, threePointMsg]
  · rw [hempty]
    constructor <;>
      · simp only [focusAreasOf]
        split_ifs <;>
          simp_all [ballHandlingMsg, playmakingMsg, threePointMsg]

/-- C8 witness: both thresholds fire simultaneously for games with
turnover mean 4.5 and assist mean 1.5. -/
theorem c8_focus_area_thresholds_witness :
    ballHandlingMsg ∈ (generateInsights c8Data now0).focusAreas ∧
    playmakingMsg ∈ (generateInsights c8Data now0).focusAreas :=
  ⟨(c8_focus_area_thresholds c8Data now0).1 (by decide)
      (by norm_num [meanOf, periodGamesOf, computePeriodStart, c8Data, mkGame, now0, dayMs, sumBy,
        List.filter]),
   (c8_focus_area_thresholds c8Data now0).2.1 (by decide)
      (by norm_num [meanOf, periodGamesOf, computePeriodStart, c8Data, mkGame, now0, dayMs, sumBy,
        List.filter])⟩

/-! ## C9 — sessions lacking the free-throw field -/

theorem ftComparison_eq_none_of_no_ft (l : List TrainingSession)
    (h : ∀ s ∈ l, truthy s.metrics.freeThrowPercentage = false) :
    ftComparison l = none := by
  have hsub : ∀ s ∈ shootingSessionsOf l, truthy s.metrics.freeThrowPercentage = false :=
    fun s hs => h s (List.mem_filter.mp hs).1
  have hfront : (frontHalf (shootingSessionsOf l)).filter
      (fun s => truthy s.metrics.freeThrowPercentage) = [] :=
    List.filter_eq_nil_iff.mpr (fun s hs => by simp [hsub s (List.mem_of_mem_take hs)])
  have hftm : ftMean (frontHalf (shootingSessionsOf l)) = .nan := by
    unfold ftMean
    rw [hfront]
    simp [sumBy, jdiv]
  simp only [ftComparison]
  split
  · rw [hftm]
    simp [JVal.jtruthy]
  · rfl

theorem pointsComparison_metric (pg : List GameStat) (p : Period) (e : Improvement)
    (h : pointsComparison pg p = some e) : e.metric = "Points Per Game" := by
  simp only [pointsComparison] at h
  split at h
  · split at h
    · rw [← Option.some.injEq] at h
      simp only [Option.some.injEq] at h
      rw [← h]
      rfl
    · exact absurd h (by simp)
  · exact absurd h (by simp)

/-- C9 counterexample: sessions `[FT 80, FT 70, 3PT-only 40]` in the
weekly window.  The spec-modelled comparator (lacking sessions excluded
from the count and the halves) compares FT means 80 vs 70 and reports a
+10 change, while the code counts the 3PT-only session toward the
threshold and the halves, leaves the older half without any FT session
(`NaN` mean), skips, and produces no entry — so sessions lacking the
field are NOT excluded from the count used to satisfy the threshold. -/
theorem c9_nonft_sessions_fill_threshold :
    ftComparisonSpec (periodSessionsOf c9Sessions .weekly now0) = some 10 ∧
    ftComparison (periodSessionsOf c9Sessions .weekly now0) = none ∧
    (generateInsights ⟨[], c9Sessions, [], .weekly⟩ now0).improvements = [] := by
  refine ⟨?_, ?_, ?_⟩
  · norm_num [ftComparisonSpec, periodSessionsOf, computePeriodStart, c9Sessions, mkSession,
      now0, dayMs, truthy, frontHalf, backHalf, meanOf, sumBy, orZero, List.filter, abs_of_pos,
      abs_of_nonpos]
  · norm_num [ftComparison, shootingSessionsOf, ftMean, periodSessionsOf, computePeriodStart,
      c9Sessions, mkSession, now0, dayMs, truthy, frontHalf, backHalf, sumBy, orZero, jdiv,
      JVal.jtruthy, List.filter]
  · norm_num [generateInsights, periodGamesOf, periodSessionsOf, computePeriodStart, c9Sessions,
      mkSession, now0, dayMs, pointsComparison, ftComparison, shootingSessionsOf, ftMean,
      frontHalf, backHalf, meanOf, sumBy, orZero, jdiv, JVal.jtruthy, truthy, List.filter]

/-- C9 amended: sessions lacking `freeThrowPercentage` are excluded from
the free-throw means (never treated as 0), but the minimum-sample
threshold and the half split range over all shooting sessions (truthy
`freeThrowPercentage` OR `threePointPercentage`); a half without any
free-throw session has a `NaN` mean and the truthiness guard then skips
the comparison.  In particular, when every period session lacks the
field, no Free Throw % improvement entry is produced. -/
theorem c9_all_missing_ft_skips_comparison (data : InsightData) (now : Timestamp)
    (h : ∀ s ∈ periodSessionsOf data.sessions data.period now,
        truthy s.metrics.freeThrowPercentage = false) :
    (generateInsights data now).improvements.all (fun e => e.metric != "Free Throw %") = true := by
  simp only [generateInsights]
  rw [ftComparison_eq_none_of_no_ft _ h]
  cases hpc : pointsComparison (periodGamesOf data.games data.period now) data.period with
  | none => simp
  | some e =>
    have hm := pointsComparison_metric _ _ _ hpc
    simp [hm]

/-- C9 witness: the amended theorem applied to two in-window sessions
that carry only `threePointPercentage`. -/
theorem c9_all_missing_ft_skips_comparison_witness :
    (generateInsights c9wData now0).improvements.all (fun e => e.metric != "Free Throw %") = true :=
  c9_all_missing_ft_skips_comparison c9wData now0 (by decide)

/-! ## C10 — a present-but-zero metric behaves like an absent one -/

theorem truthy_zeroToNone (o : Option ℚ) : truthy (zeroToNone o) = truthy o := by
  rcases o with _ | v
  · rfl
  · by_cases hv : v = 0 <;> simp [zeroToNone, truthy, hv]

theorem orZero_zeroToNone (o : Option ℚ) : orZero (zeroToNone o) = orZero o := by
  rcases o with _ | v
  · rfl
  · by_cases hv : v = 0 <;> simp [zeroToNone, orZero, hv]

theorem periodSessionsOf_map_scrub (l : List TrainingSession) (p : Period) (now : Timestamp) :
    periodSessionsOf (l.map scrubSession) p now = (periodSessionsOf l p now).map scrubSession := by
  unfold periodSessionsOf
  rw [List.filter_map]
  rfl

theorem shootingSessionsOf_map_scrub (l : List TrainingSession) :
    shootingSessionsOf (l.map scrubSession) = (shootingSessionsOf l).map scrubSession := by
  unfold shootingSessionsOf
  rw [List.filter_map]
  exact congrArg _ (List.filter_congr (fun s _ => by
    simp [scrubSession, Function.comp, truthy_zeroToNone]))

theorem ftFilter_map_scrub (l : List TrainingSession) :
    (l.map scrubSession).filter (fun s => truthy s.metrics.freeThrowPercentage) =
      (l.filter (fun s => truthy s.metrics.freeThrowPercentage)).map scrubSession := by
  rw [List.filter_map]
  exact congrArg _ (List.filter_congr (fun s _ => by
    simp [scrubSession, Function.comp, truthy_zeroToNone]))

theorem threePtFilter_map_scrub (l : List TrainingSession) :
    (l.map scrubSession).filter (fun s => truthy s.metrics.threePointPercentage) =
      (l.filter (fun s => truthy s.metrics.threePointPercentage)).map scrubSession := by
  rw [List.filter_map]
  exact congrArg _ (List.filter_congr (fun s _ => by
    simp [scrubSession, Function.comp, truthy_zeroToNone]))

theorem sumBy_ft_map_scrub (l : List TrainingSession) :
    sumBy (l.map scrubSession) (fun s => orZero s.metrics.freeThrowPercentage) =
      sumBy l (fun s => orZero s.metrics.freeThrowPercentage) := by
  unfold sumBy
  rw [List.foldl_map]
  exact List.foldl_ext _ _ _ (fun a s _ => by simp [scrubSession, orZero_zeroToNone])

theorem sumBy_threePt_map_scrub (l : List TrainingSession) :
    sumBy (l.map scrubSession) (fun s => orZero s.metrics.threePointPercentage) =
      sumBy l (fun s => orZero s.metrics.threePointPercentage) := by
  unfold sumBy
  rw [List.foldl_map]
  exact List.foldl_ext _ _ _ (fun a s _ => by simp [scrubSession, orZero_zeroToNone])

theorem frontHalf_map {α β : Type} (f : α → β) (l : List α) :
    frontHalf (l.map f) = (frontHalf l).map f := by
  simp [frontHalf, List.length_map, List.map_take]

theorem backHalf_map {α β : Type} (f : α → β) (l : List α) :
    backHalf (l.map f) = (backHalf l).map f := by
  simp [backHalf, List.length_map, List.map_drop]

theorem ftMean_map_scrub (l : List TrainingSession) :
    ftMean (l.map scrubSession) = ftMean l := by
  unfold ftMean
  rw [ftFilter_map_scrub, sumBy_ft_map_scrub, List.length_map]

theorem threePtMean_map_scrub (l : List TrainingSession) :
    threePtMean (l.map scrubSession) = threePtMean l := by
  unfold threePtMean
  rw [threePtFilter_map_scrub, sumBy_threePt_map_scrub, List.length_map]

theorem ftComparison_map_scrub (l : List TrainingSession) :
    ftComparison (l.map scrubSession) = ftComparison l := by
  simp only [ftComparison, shootingSessionsOf_map_scrub, List.length_map, frontHalf_map,
    backHalf_map, ftMean_map_scrub]

/-- C10: every field-presence check in the insights logic tests the
numeric value's truthiness, so a training session whose
`freeThrowPercentage` or `threePointPercentage` is present but exactly 0
produces the same generation result as one in which the field is absent:
it is excluded from the shooting-session selection, from the free-throw
means and sample counts, and from the three-point focus-area mean. -/
theorem c10_zero_metric_same_as_absent (data : InsightData) (now : Timestamp) :
    generateInsights
      { games := data.games, sessions := data.sessions.map scrubSession,
        goals := data.goals, period := data.period } now =
      generateInsights data now := by
  simp only [generateInsights, periodSessionsOf_map_scrub, ftComparison_map_scrub,
    insightsOf, focusAreasOf, motivationalOf, shootingSessionsOf_map_scrub,
    threePtMean_map_scrub, List.length_map]

/-! ## C5 — empty-collection aggregates and the personal-best argmax -/

theorem getPersonalBest_foldl (t : List GameStat) (acc : GameStat) :
    (∀ g ∈ acc :: t,
       g.points ≤ (t.foldl (fun mx g => if mx.points < g.points then g else mx) acc).points) ∧
    (acc :: t).find?
        (fun g => g.points ==
          (t.foldl (fun mx g => if mx.points < g.points then g else mx) acc).points) =
      some (t.foldl (fun mx g => if mx.points < g.points then g else mx) acc) := by
  induction t generalizing acc with
  | nil =>
    refine ⟨?_, ?_⟩
    · intro g hg
      rcases List.mem_singleton.mp hg with rfl
      exact le_refl _
    · simp [List.find?]
  | cons g t ih =>
    by_cases hlt : acc.points < g.points
    · have hfold : (g :: t).foldl (fun mx g => if mx.points < g.points then g else mx) acc =
          t.foldl (fun mx g => if mx.points < g.points then g else mx) g := by
        simp [List.foldl_cons, hlt]
      obtain ⟨ihb, ihf⟩ := ih g
      have hgb : g.points ≤ (t.foldl (fun mx g => if mx.points < g.points then g else mx) g).points :=
        ihb g (List.mem_cons_self g t)
      refine ⟨?_, ?_⟩
      · intro x hx
        rw [hfold]
        rcases List.mem_cons.mp hx with rfl | hx'
        · exact le_of_lt (lt_of_lt_of_le hlt hgb)
        · exact ihb x hx'
      · rw [hfold]
        rw [List.find?_cons_of_neg _
          (by simp [ne_of_lt (lt_of_lt_of_le hlt hgb)])]
        exact ihf
    · have hfold : (g :: t).foldl (fun mx g => if mx.points < g.points then g else mx) acc =
          t.foldl (fun mx g => if mx.points < g.points then g else mx) acc := by
        simp [List.foldl_cons, hlt]
      obtain ⟨ihb, ihf⟩ := ih acc
      have hge : g.points ≤ acc.points := not_lt.mp hlt
      have haccb : acc.points ≤
          (t.foldl (fun mx g => if mx.points < g.points then g else mx) acc).points :=
        ihb acc (List.mem_cons_self acc t)
      refine ⟨?_, ?_⟩
      · intro x hx
        rw [hfold]
        rcases List.mem_cons.mp hx with rfl | hx'
        · exact haccb
        rcases List.mem_cons.mp hx' with rfl | hx''
        · exact le_trans hge haccb
        · exact ihb x (List.mem_cons_of_mem _ hx'')
      · rw [hfold]
        by_cases hacc : acc.points =
            (t.foldl (fun mx g => if mx.points < g.points then g else mx) acc).points
        · have h1 : (acc :: t).find?
              (fun g => g.points ==
                (t.foldl (fun mx g => if mx.points < g.points then g else mx) acc).points) =
              some acc :=
            List.find?_cons_of_pos _ (by simp [hacc])
          have h2 : acc = t.foldl (fun mx g => if mx.points < g.points then g else mx) acc :=
            Option.some.inj (h1.symm.trans ihf)
          rw [List.find?_cons_of_pos _ (by simp [hacc]), ← h2]
        · have hlt2 : acc.points <
              (t.foldl (fun mx g => if mx.points < g.points then g else mx) acc).points :=
            lt_of_le_of_ne haccb hacc
          have hgne : g.points ≠
              (t.foldl (fun mx g => if mx.points < g.points then g else mx) acc).points :=
            ne_of_lt (lt_of_le_of_lt hge hlt2)
          have ht := ihf
          rw [List.find?_cons_of_neg _ (by simp [hacc])] at ht
          rw [List.find?_cons_of_neg _ (by simp [hacc]),
            List.find?_cons_of_neg _ (by simp [hgne])]
          exact ht

/-- C5: the season mean of any stat over the empty collection is the
number 0 and the personal best of the empty collection is `none` (no
error); over a non-empty collection the personal best exists, attains
the maximum points, and is the first-indexed record carrying that
maximum (`find?` by its points value returns exactly it). -/
theorem c5_dashboard_aggregates :
    (∀ stat, calculateAverage [] stat = JsValue.num 0) ∧
    getPersonalBest [] = none ∧
    ∀ games : List GameStat, games ≠ [] →
      (getPersonalBest games).isSome = true ∧
      ∀ b, getPersonalBest games = some b →
        (∀ g ∈ games, g.points ≤ b.points) ∧
        games.find? (fun g => g.points == b.points) = some b := by
  refine ⟨fun stat => rfl, rfl, ?_⟩
  intro games hne
  obtain ⟨h, t, rfl⟩ := List.exists_cons_of_ne_nil hne
  refine ⟨by simp [getPersonalBest], ?_⟩
  intro b hb
  have hfold : t.foldl (fun mx g => if mx.points < g.points then g else mx) h = b := by
    simpa [getPersonalBest] using hb
  have hspec := getPersonalBest_foldl t h
  rw [hfold] at hspec
  exact hspec

/-- C5 witness: the ties-to-first case — points 4, 9, 9 — where the
returned record is the earlier of the two 9-point games. -/
theorem c5_dashboard_aggregates_witness :
    getPersonalBest c5Games = some (mkGame (3 * dayMs) 9 2 0) ∧
    c5Games.find? (fun g => g.points == (mkGame (3 * dayMs) 9 2 0).points) =
      some (mkGame (3 * dayMs) 9 2 0) := by
  have h := ((c5_dashboard_aggregates.2.2 c5Games (by decide)).2
    (mkGame (3 * dayMs) 9 2 0) (by decide)).2
  exact ⟨by decide, h⟩

/-! ## C6 — activity score -/

theorem getActivityScore_eq_of_no_future (games : List GameStat)
    (sessions : List TrainingSession) (now : Timestamp)
    (h : ∀ d ∈ games.map GameStat.date ++ sessions.map TrainingSession.date, d ≤ now) :
    getActivityScore games sessions now =
      min ((((games.map GameStat.date ++ sessions.map TrainingSession.date).filter
          (fun d => now - 7 * dayMs ≤ d ∧ d ≤ now)).length : Int) * 15) 100 := by
  simp only [getActivityScore]
  rw [List.filter_congr (fun d hd => ?_)]
  simp [h d hd]

/-- C6: when no record is future-dated, the activity score is
`min(c * 15, 100)` for `c` the number of combined game and training
records dated within the trailing 7 days; it lies in `[0, 100]`, equals
100 at `c = 7`, and is monotonically non-decreasing in `c`. -/
theorem c6_activity_score (games : List GameStat) (sessions : List TrainingSession)
    (now : Timestamp)
    (h : ∀ d ∈ games.map GameStat.date ++ sessions.map TrainingSession.date, d ≤ now) :
    getActivityScore games sessions now =
      min ((((games.map GameStat.date ++ sessions.map TrainingSession.date).filter
          (fun d => now - 7 * dayMs ≤ d ∧ d ≤ now)).length : Int) * 15) 100 ∧
    0 ≤ getActivityScore games sessions now ∧
    getActivityScore games sessions now ≤ 100 ∧
    (((games.map GameStat.date ++ sessions.map TrainingSession.date).filter
          (fun d => now - 7 * dayMs ≤ d ∧ d ≤ now)).length = 7 →
       getActivityScore games sessions now = 100) ∧
    ∀ (games2 : List GameStat) (sessions2 : List TrainingSession),
      (∀ d ∈ games2.map GameStat.date ++ sessions2.map TrainingSession.date, d ≤ now) →
      ((games.map GameStat.date ++ sessions.map TrainingSession.date).filter
          (fun d => now - 7 * dayMs ≤ d ∧ d ≤ now)).length ≤
        ((games2.map GameStat.date ++ sessions2.map TrainingSession.date).filter
          (fun d => now - 7 * dayMs ≤ d ∧ d ≤ now)).length →
      getActivityScore games sessions now ≤ getActivityScore games2 sessions2 now := by
  have h1 := getActivityScore_eq_of_no_future games sessions now h
  refine ⟨h1, ?_, ?_, ?_, ?_⟩
  · rw [h1]
    exact le_min (mul_nonneg (Int.natCast_nonneg _) (by norm_num)) (by norm_num)
  · rw [h1]
    exact min_le_right _ _
  · intro hc
    rw [h1, hc]
    norm_num
  · intro games2 sessions2 h2 hc
    rw [h1, getActivityScore_eq_of_no_future games2 sessions2 now h2]
    exact min_le_min (mul_le_mul_of_nonneg_right (by exact_mod_cast hc) (by norm_num)) le_rfl

/-- C6 witness: two games and one session inside the trailing week of
`now0` give `min(3 * 15, 100) = 45`. -/
theorem c6_activity_score_witness :
    getActivityScore c6Games c6Sessions now0 = min ((3 : Int) * 15) 100 := by
  have h := (c6_activity_score c6Games c6Sessions now0 (by decide)).1
  rw [h]
  decide
